import Mathlib

/-!
Verification of the telemetry aggregation engine of the system-monitor
repository (src/collector.rs), as a shallow embedding in Lean 4.

Modelling conventions:
* Rust `u32`/`u64` values are embedded as `Nat`; wrap-around of release-mode
  arithmetic is made explicit with `% 2 ^ 64` exactly where the source relies
  on it (the network byte-counter subtraction and the counter sums).
* Rust `f32`/`f64` arithmetic is embedded as exact rational (`ℚ`) arithmetic;
  rounding of IEEE floats is not modelled.  The one float feature the claims
  depend on, NaN and the partiality of `partial_cmp`, is modelled explicitly
  by the type `F32` below (a rational or NaN).
* Fallible reads of sysfs files are environment fields of type `Option String`
  (`none` = the `fs::read_to_string(..)` call failed); the parsing the source
  performs on the contents is embedded faithfully.
* The one piece of cross-call state, `LAST_NETWORK_DATA`, is passed explicitly:
  `collect_network_advanced` takes the previous state and returns the new one.
* A Rust panic is modelled as `none`: the only panic reachable in this code is
  the `partial_cmp(..).unwrap()` in the process sort comparator.
-/

/-! ### String helpers mirroring the Rust standard library functions used
by collector.rs (`str::contains`, `str::lines`, `split_whitespace`,
`trim_end_matches`, and the `u32`/`f32` `FromStr` parsers). -/

/-- `startsWithL pat l` : `pat` is a prefix of `l` (over characters). -/
def startsWithL : List Char → List Char → Bool
  | [], _ => true
  | _ :: _, [] => false
  | a :: as, b :: bs => a = b && startsWithL as bs

/-- `hasSubL pat l` : `pat` occurs as a contiguous substring of `l`. -/
def hasSubL (pat : List Char) : List Char → Bool
  | [] => pat.isEmpty
  | b :: bs => startsWithL pat (b :: bs) || hasSubL pat bs

/-- Model of Rust `str::contains(pattern)` (substring containment). -/
def rustContains (s pat : String) : Bool :=
  hasSubL pat.toList s.toList

/-- Model of Rust `str::split_whitespace`: maximal non-whitespace runs. -/
def rustSplitWhitespace (s : String) : List String :=
  (s.split Char.isWhitespace).filter (fun t => t ≠ "")

/-- Strip one trailing carriage return, as Rust `str::lines` does per line. -/
def stripCR (t : String) : String :=
  if t.data.getLast? = some '\r' then String.mk t.data.dropLast else t

/-- Model of Rust `str::lines`: split on newline, no trailing empty line. -/
def rustLines (s : String) : List String :=
  let ps := s.splitOn "\n"
  let ps := match ps.getLast? with
    | some t => if t = "" then ps.dropLast else ps
    | none => ps
  ps.map stripCR

/-- Model of Rust `str::trim_end_matches(c)`: drop every trailing `c`. -/
def trimEndMatches (s : String) (c : Char) : String :=
  String.mk (s.data.reverse.dropWhile (fun x => x = c)).reverse

/-- Numeric value of a list of ASCII digits. -/
def digitsVal (l : List Char) : ℕ :=
  l.foldl (fun a c => a * 10 + (c.toNat - 48)) 0

/-- Model of Rust `str::parse::<u32>()`: optional leading `+`, one or more
ASCII digits, value below `2 ^ 32`; anything else is a parse error. -/
def parseU32 (s : String) : Option ℕ :=
  let t := match s.toList with
    | '+' :: rest => rest
    | l => l
  if t ≠ [] ∧ t.all Char.isDigit then
    let n := digitsVal t
    if n < 2 ^ 32 then some n else none
  else none

/-- Unsigned decimal part of the `f32` parser: `digits`, `digits.digits`,
`digits.` or `.digits`. -/
def parseDecCore (l : List Char) : Option ℚ :=
  let ip := l.takeWhile Char.isDigit
  let rest := l.dropWhile Char.isDigit
  match rest with
  | [] => if ip = [] then none else some (digitsVal ip)
  | '.' :: frac =>
      if frac.all Char.isDigit ∧ (ip ≠ [] ∨ frac ≠ []) then
        some ((digitsVal ip : ℚ) + (digitsVal frac : ℚ) / 10 ^ frac.length)
      else none
  | _ => none

/-- Model of Rust `str::parse::<f32>()` on the plain decimal forms the
kernel's sysfs files produce (optional sign, digits, optional fraction).
The exponent / infinity / NaN forms of the full grammar never arise from
the integer milli-unit files this program reads and are not modelled. -/
def parseF32 (s : String) : Option ℚ :=
  match s.toList with
  | '+' :: rest => parseDecCore rest
  | '-' :: rest => (parseDecCore rest).map Neg.neg
  | l => parseDecCore l

/-! ### The f32 model used where NaN matters (process cpu_usage) -/

/-- An `f32` value as the process ranker sees it: NaN or a rational. -/
inductive F32 where
  | nan : F32
  | val : ℚ → F32
deriving DecidableEq

/-- Whether the value is NaN. -/
def F32.isNaN : F32 → Bool
  | .nan => true
  | .val _ => false

/-- The rational magnitude, with an arbitrary value (0) for NaN; only used
where NaN has already been excluded. -/
def F32.q : F32 → ℚ
  | .nan => 0
  | .val a => a

/-- Model of Rust `f32::partial_cmp`: `none` iff either side is NaN. -/
def F32.pcmp : F32 → F32 → Option Ordering
  | .val a, .val b => some (compare a b)
  | _, _ => none

/-! ### Output data model (the `#[derive(Serialize)]` structs of collector.rs) -/

/-- `struct GpuProcessInfo`. -/
structure GpuProcessInfo where
  pid : ℕ
  name : String
  memory_mb : ℕ
deriving DecidableEq

/-- `struct GpuInfo`. -/
structure GpuInfo where
  vendor : String
  name : String
  usage_percent : ℕ
  memory_total_mb : ℕ
  memory_used_mb : ℕ
  temperature : ℕ
  fan_speed_percent : Option ℕ
  core_clock_mhz : Option ℕ
  memory_clock_mhz : Option ℕ
  top_processes : List GpuProcessInfo
deriving DecidableEq

/-- `struct ProcessInfo`; `cpu_usage` is the raw `f32` from sysinfo. -/
structure ProcessInfo where
  pid : ℕ
  name : String
  cpu_usage : F32
  memory_mb : ℚ
  status : String
deriving DecidableEq

/-- `struct DiskInfo`. -/
structure DiskInfo where
  name : String
  total_gb : ℚ
  used_gb : ℚ
  usage_percent : ℚ
  mount_point : String
deriving DecidableEq

/-- `struct NetworkInterface` (the already MiB-truncated display counters). -/
structure NetworkInterface where
  name : String
  received_mb : ℕ
  transmitted_mb : ℕ
deriving DecidableEq

/-- `struct NetworkAdvanced`. -/
structure NetworkAdvanced where
  interfaces : List NetworkInterface
  download_speed_mbps : ℚ
  upload_speed_mbps : ℚ
deriving DecidableEq

/-- `struct HardwareSensors`. -/
structure HardwareSensors where
  cpu_temp_celsius : Option ℚ
  motherboard_temp_celsius : Option ℚ
  cpu_fan_rpm : Option ℕ
  cpu_voltage : Option ℚ
deriving DecidableEq

/-- `struct BatteryInfo`. -/
structure BatteryInfo where
  percentage : ℚ
  is_charging : Bool
  time_remaining_minutes : Option ℤ
  health_percent : ℚ
deriving DecidableEq

/-- `struct ResourceBlock`. -/
structure ResourceBlock where
  cpu_usage : ℚ
  cpu_count : ℕ
  cpu_name : String
  memory_total : ℚ
  memory_used : ℚ
  memory_usage_percent : ℚ
deriving DecidableEq

/-- `struct CpuAdvanced`. -/
structure CpuAdvanced where
  per_core_usage : List ℚ
  cpu_frequency_mhz : ℕ
  load_avg_1 : ℚ
  load_avg_5 : ℚ
  load_avg_15 : ℚ
deriving DecidableEq

/-- `struct SystemStats` (the snapshot). -/
structure SystemStats where
  hostname : String
  os_version : String
  resources : ResourceBlock
  cpu_advanced : CpuAdvanced
  gpu : Option GpuInfo
  processes : List ProcessInfo
  disks : List DiskInfo
  network_advanced : NetworkAdvanced
  sensors : HardwareSensors
  battery : Option BatteryInfo
deriving DecidableEq

/-! ### NetworkRateTracker (`collect_network_advanced`, `LAST_NETWORK_DATA`)

The cross-call state `LAST_NETWORK_DATA : Option (u64, u64, Instant)` is
passed in and returned explicitly.  `Instant` is modelled as a rational
timestamp in seconds; `duration_since(..).as_secs_f64()` is `now - last`,
never negative for a monotone clock, and the source's `duration > 0.0` test
sends a zero (or clamped) duration to the `(0.0, 0.0)` branch. -/

/-- The per-interface data sysinfo's `Networks` provides: cumulative byte
counters since boot (`total_received` / `total_transmitted`, both u64). -/
structure RawNetIf where
  name : String
  total_received : ℕ
  total_transmitted : ℕ
deriving DecidableEq

/-- The interface mapping of collector.rs lines 463-470: the counters are
divided down to whole MiB (`/ 1024 / 1024`, integer division on u64). -/
def netIfOf (i : RawNetIf) : NetworkInterface :=
  { name := i.name
  , received_mb := i.total_received % 2 ^ 64 / 1024 / 1024
  , transmitted_mb := i.total_transmitted % 2 ^ 64 / 1024 / 1024 }

/-- The summed (already MiB-truncated) counters of lines 473-474; the u64
iterator sum wraps modulo `2 ^ 64` (release-mode semantics). -/
def mbTotals (raw : List RawNetIf) : ℕ × ℕ :=
  ( ((raw.map netIfOf).map NetworkInterface.received_mb).sum % 2 ^ 64
  , ((raw.map netIfOf).map NetworkInterface.transmitted_mb).sum % 2 ^ 64 )

/-- One u64 wrapping subtraction `a - b` (release-mode semantics), for
arguments already reduced below `2 ^ 64`. -/
def wsub64 (a b : ℕ) : ℕ :=
  (a + 2 ^ 64 - b) % 2 ^ 64

/-- `collect_network_advanced` (collector.rs lines 460-502).  Takes the
persisted `LAST_NETWORK_DATA` and the current clock, returns the block and
the new persisted state.  Note the source updates `LAST_NETWORK_DATA` only
in the `duration > 0.0` branch and on the very first call. -/
def collect_network_advanced (st : Option (ℕ × ℕ × ℚ)) (now : ℚ)
    (raw : List RawNetIf) : NetworkAdvanced × Option (ℕ × ℕ × ℚ) :=
  let interfaces := raw.map netIfOf
  let totals := mbTotals raw
  match st with
  | some (lastRx, lastTx, lastT) =>
      let duration := now - lastT
      if 0 < duration then
        let dl : ℚ := (wsub64 totals.1 lastRx : ℚ) / duration * 8 / 1000
        let ul : ℚ := (wsub64 totals.2 lastTx : ℚ) / duration * 8 / 1000
        ( { interfaces := interfaces
          , download_speed_mbps := dl, upload_speed_mbps := ul }
        , some (totals.1, totals.2, now) )
      else
        ( { interfaces := interfaces
          , download_speed_mbps := 0, upload_speed_mbps := 0 }
        , st )
  | none =>
      ( { interfaces := interfaces
        , download_speed_mbps := 0, upload_speed_mbps := 0 }
      , some (totals.1, totals.2, now) )

/-! ### ProcessRanker (`collect_process_info`) -/

/-- sysinfo's `ProcessStatus` as matched by the source (six named arms and
a catch-all). -/
inductive PStatus where
  | run | sleep | stop | zombie | dead | idle | other
deriving DecidableEq

/-- The status display string of collector.rs lines 440-448. -/
def statusStr : PStatus → String
  | .run => "运行中"
  | .sleep => "睡眠"
  | .stop => "停止"
  | .zombie => "僵尸"
  | .dead => "死亡"
  | .idle => "空闲"
  | .other => "未知"

/-- One entry of sysinfo's process table: pid, name, cpu usage (f32, may be
NaN), resident memory in bytes (u64), status. -/
structure RawProcess where
  pid : ℕ
  name : String
  cpu_usage : F32
  memory : ℕ
  status : PStatus
deriving DecidableEq

/-- The per-process mapping of collector.rs lines 434-449. -/
def processInfoOf (p : RawProcess) : ProcessInfo :=
  { pid := p.pid
  , name := p.name
  , cpu_usage := p.cpu_usage
  , memory_mb := (p.memory % 2 ^ 64 : ℕ) / 1024 / 1024
  , status := statusStr p.status }

/-- The sort order of the comparator at line 454,
`|a, b| b.cpu_usage.partial_cmp(&a.cpu_usage).unwrap()`: descending by
cpu_usage.  On the NaN-free runs on which the comparator does not panic it
agrees with this total Boolean order (where `F32.q` is the rational value). -/
def procLE (a b : ProcessInfo) : Bool :=
  decide (F32.q b.cpu_usage ≤ F32.q a.cpu_usage)

/-- Whether the sort at line 454 panics: `partial_cmp` returns `None` as
soon as a comparison touches a NaN, and `slice::sort_by` invokes the
comparator on every element of a slice of length at least two, so the
`unwrap()` panics exactly when some `cpu_usage` is NaN and there are at
least two processes. -/
def sortPanics (procs : List ProcessInfo) : Bool :=
  procs.any (fun p => p.cpu_usage.isNaN) && decide (2 ≤ procs.length)

/-- `collect_process_info` (collector.rs lines 430-458): map the table,
sort descending by cpu_usage with a stable sort, truncate to 10.  `none`
models the comparator panic. -/
def collect_process_info (raw : List RawProcess) : Option (List ProcessInfo) :=
  let procs := raw.map processInfoOf
  if sortPanics procs then none
  else some ((procs.mergeSort procLE).take 10)

/-! ### GpuProbeChain (`collect_gpu_info` and the three vendor probes)

The environment holds, for the NVIDIA probe, the state of the vendor
management library (NVML): `none` when `Nvml::init()` or
`device_by_index(0)` fails, otherwise the device's query results.  For the
sysfs probes it holds one consistent snapshot of the filesystem: existence
booleans for the two paths tested, and the `fs::read_to_string` results for
the files read. -/

/-- One resident graphics process as returned by
`running_graphics_processes`: pid, optional name, used GPU memory bytes. -/
structure NvmlProc where
  pid : ℕ
  process_name : Option String
  used_gpu_memory : ℕ
deriving DecidableEq

/-- Query results of NVML device 0 (each `Option` is the `Result` of the
corresponding call). -/
structure NvmlDevice where
  name : Option String
  utilization_gpu : Option ℕ
  memory_info : Option (ℕ × ℕ)
  temperature : Option ℕ
  fan_speed : Option ℕ
  clock_graphics : Option ℕ
  clock_memory : Option ℕ
  running_graphics_processes : Option (List NvmlProc)
deriving DecidableEq

/-- The environment of the GPU probe chain. -/
structure GpuEnv where
  nvml_device0 : Option NvmlDevice
  card0_exists : Bool
  card0_device_exists : Bool
  amd_product_name : Option String
  amd_pp_dpm_sclk : Option String
  amd_hwmon1_temp1 : Option String
  amd_hwmon1_fan1 : Option String
  intel_gt_cur_freq : Option String
deriving DecidableEq

/-- String constant. -/
def strUnknownGpu : String := "Unknown GPU"

/-- String constant. -/
def strUnknown : String := "unknown"

/-- String constant. -/
def strAmdGpu : String := "AMD GPU"

/-- `collect_nvidia_gpu` (collector.rs lines 256-321). -/
def collect_nvidia_gpu (env : GpuEnv) : Option GpuInfo :=
  match env.nvml_device0 with
  | none => none
  | some d =>
    match d.memory_info with
    | none => none
    | some mi =>
      some
        { vendor := "NVIDIA"
        , name := match d.name with
            | some n => n
            | none => strUnknownGpu
        , usage_percent := (d.utilization_gpu).getD 0
        , memory_total_mb := mi.1 % 2 ^ 64 / 1024 / 1024
        , memory_used_mb := mi.2 % 2 ^ 64 / 1024 / 1024
        , temperature := (d.temperature).getD 0
        , fan_speed_percent := d.fan_speed
        , core_clock_mhz := d.clock_graphics
        , memory_clock_mhz := d.clock_memory
        , top_processes :=
            match d.running_graphics_processes with
            | some ps =>
                (ps.map (fun p =>
                  { pid := p.pid
                  , name := match p.process_name with
                      | some n => n
                      | none => strUnknown
                  , memory_mb := p.used_gpu_memory % 2 ^ 64 / 1024 / 1024 })).take 5
            | none => [] }

/-- The `pp_dpm_sclk` clock-table parse of collector.rs lines 339-357:
first line holding at least two whitespace-separated tokens and a `*`,
second token with trailing `M`, `H`, `z` characters stripped (in that
order), parsed as u32. -/
def parseSclk (content : String) : Option ℕ :=
  ((rustLines content).filterMap (fun line =>
    let parts := rustSplitWhitespace line
    if 2 ≤ parts.length ∧ line.contains '*' then
      parseU32
        (trimEndMatches (trimEndMatches (trimEndMatches (parts.getD 1 "") 'M') 'H') 'z')
    else none)).head?

/-- The AMD fan percentage of lines 373-377: rpm against an assumed 3000
RPM ceiling, `as u32` truncation, clamped to 100. -/
def amdFanPercent (rpm : ℕ) : ℕ :=
  let percent := (Int.floor ((rpm : ℚ) / 3000 * 100)).toNat
  if 100 < percent then 100 else percent

/-- `collect_amd_gpu` (collector.rs lines 323-392): activates iff
`/sys/class/drm/card0/device` exists, and then always returns `some`
(every read inside is defaulted). -/
def collect_amd_gpu (env : GpuEnv) : Option GpuInfo :=
  if env.card0_device_exists then
    some
      { vendor := "AMD"
      , name := match env.amd_product_name with
          | some s => s.trim
          | none => strAmdGpu
      , usage_percent := 0
      , memory_total_mb := 0
      , memory_used_mb := 0
      , temperature :=
          (((env.amd_hwmon1_temp1).bind (fun s => parseU32 s.trim)).map
            (fun t => t / 1000)).getD 0
      , fan_speed_percent :=
          ((env.amd_hwmon1_fan1).bind (fun s => parseU32 s.trim)).map amdFanPercent
      , core_clock_mhz := (env.amd_pp_dpm_sclk).bind parseSclk
      , memory_clock_mhz := none
      , top_processes := [] }
  else none

/-- `collect_intel_gpu` (collector.rs lines 394-428): activates iff both
`/sys/class/drm/card0` and `/sys/class/drm/card0/device` exist. -/
def collect_intel_gpu (env : GpuEnv) : Option GpuInfo :=
  if env.card0_exists then
    if env.card0_device_exists then
      some
        { vendor := "Intel"
        , name := "Intel Integrated Graphics"
        , usage_percent := 0
        , memory_total_mb := 0
        , memory_used_mb := 0
        , temperature := 0
        , fan_speed_percent := none
        , core_clock_mhz := (env.intel_gt_cur_freq).bind (fun s => parseU32 s.trim)
        , memory_clock_mhz := none
        , top_processes := [] }
    else none
  else none

/-- `collect_gpu_info` (collector.rs lines 237-254): NVIDIA, then AMD,
then Intel; the first `some` short-circuits. -/
def collect_gpu_info (env : GpuEnv) : Option GpuInfo :=
  match collect_nvidia_gpu env with
  | some info => some info
  | none =>
    match collect_amd_gpu env with
    | some info => some info
    | none =>
      match collect_intel_gpu env with
      | some info => some info
      | none => none

/-! ### HardwareSensorScanner (`collect_hardware_sensors`) -/

/-- One enumerated `/sys/class/hwmon` entry (the `Ok` entries of the
`read_dir` iterator, in enumeration order): the `read_to_string` results of
the four files the scanner touches. -/
structure HwmonEntry where
  name_file : Option String
  temp1_input : Option String
  fan1_input : Option String
  in1_input : Option String
deriving DecidableEq

/-- String constant. -/
def strCoretemp : String := "coretemp"

/-- String constant. -/
def strK10temp : String := "k10temp"

/-- String constant. -/
def strCpu : String := "cpu"

/-- String constant. -/
def strAcpitz : String := "acpitz"

/-- String constant. -/
def strBoard : String := "board"

/-- The trimmed (defaulted) device name of lines 516-519. -/
def entryName (e : HwmonEntry) : String :=
  match e.name_file with
  | some s => s.trim
  | none => ""

/-- The CPU-name classification of line 522. -/
def cpuNameMatch (name : String) : Bool :=
  rustContains name strCoretemp || rustContains name strK10temp ||
    rustContains name strCpu

/-- The motherboard-name classification of line 530. -/
def boardNameMatch (name : String) : Bool :=
  rustContains name strAcpitz || rustContains name strBoard

/-- A temperature read: parse as f32, divide by 1000. -/
def entryTemp (e : HwmonEntry) : Option ℚ :=
  ((e.temp1_input).bind (fun s => parseF32 s.trim)).map (fun t => t / 1000)

/-- A fan read: parse as u32. -/
def entryFan (e : HwmonEntry) : Option ℕ :=
  (e.fan1_input).bind (fun s => parseU32 s.trim)

/-- A voltage read: parse as f32, divide by 1000. -/
def entryVolt (e : HwmonEntry) : Option ℚ :=
  ((e.in1_input).bind (fun s => parseF32 s.trim)).map (fun v => v / 1000)

/-- The loop body of collector.rs lines 514-547.  Temperatures are
(re)assigned only under their name-classification guard; fan and voltage
are (re)assigned on every entry, unconditionally, even when the read or
parse fails. -/
def sensorStep (acc : HardwareSensors) (e : HwmonEntry) : HardwareSensors :=
  { cpu_temp_celsius :=
      if cpuNameMatch (entryName e) then entryTemp e else acc.cpu_temp_celsius
  , motherboard_temp_celsius :=
      if boardNameMatch (entryName e) then entryTemp e
      else acc.motherboard_temp_celsius
  , cpu_fan_rpm := entryFan e
  , cpu_voltage := entryVolt e }

/-- The thermal-zone fallback read of lines 551-556. -/
def thermalZoneTemp (thermal0 : Option String) : Option ℚ :=
  (thermal0.bind (fun s => parseF32 s.trim)).map (fun t => t / 1000)

/-- `collect_hardware_sensors` (collector.rs lines 504-564).  `dir` is the
`read_dir` result (`none` = the directory could not be read), `thermal0`
the `read_to_string` result for `/sys/class/thermal/thermal_zone0/temp`. -/
def collect_hardware_sensors (dir : Option (List HwmonEntry))
    (thermal0 : Option String) : HardwareSensors :=
  let s0 : HardwareSensors :=
    { cpu_temp_celsius := none, motherboard_temp_celsius := none
    , cpu_fan_rpm := none, cpu_voltage := none }
  let s := match dir with
    | some entries => entries.foldl sensorStep s0
    | none => s0
  { s with
    cpu_temp_celsius :=
      match s.cpu_temp_celsius with
      | some v => some v
      | none => thermalZoneTemp thermal0 }

/-! ### DiskEnumerator, CpuMemorySampler, BatteryProbe, Aggregator -/

/-- One enumerated disk: name, total and available space in bytes (u64),
mount point. -/
structure RawDisk where
  name : String
  total_space : ℕ
  available_space : ℕ
  mount_point : String
deriving DecidableEq

/-- The per-disk mapping of collector.rs lines 184-202: byte counts scaled
to GiB (f64 division, exact here), `used = total - available`, and a
guarded percentage. -/
def diskInfoOf (d : RawDisk) : DiskInfo :=
  let total : ℚ := (d.total_space % 2 ^ 64 : ℕ) / 1024 / 1024 / 1024
  let available : ℚ := (d.available_space % 2 ^ 64 : ℕ) / 1024 / 1024 / 1024
  let used := total - available
  { name := d.name
  , total_gb := total
  , used_gb := used
  , usage_percent := if 0 < total then used / total * 100 else 0
  , mount_point := d.mount_point }

/-- One enumerated CPU: usage percentage (f32), frequency (MHz), brand. -/
structure RawCpu where
  usage : ℚ
  frequency : ℕ
  brand : String
deriving DecidableEq

/-- Battery charge state (the variants the source distinguishes). -/
inductive BatState where
  | charging | full | discharging | empty | other
deriving DecidableEq

/-- The first battery as the battery crate reports it: `state_of_charge`
and `state_of_health` as fractions, `time_to_empty` in seconds. -/
structure RawBattery where
  state_of_charge : ℚ
  state : BatState
  time_to_empty : Option ℚ
  state_of_health : ℚ
deriving DecidableEq

/-- `collect_battery_info` (collector.rs lines 566-586); the argument is
`none` when the manager, the battery list, or the first battery is
unavailable. -/
def collect_battery_info (b : Option RawBattery) : Option BatteryInfo :=
  b.map (fun bat =>
    let is_charging : Bool :=
      match bat.state with
      | .charging => true
      | .full => true
      | _ => false
    { percentage := bat.state_of_charge * 100
    , is_charging := is_charging
    , time_remaining_minutes :=
        if is_charging then none
        else (bat.time_to_empty).map (fun t => Int.floor t / 60)
    , health_percent := bat.state_of_health * 100 })

/-- The whole environment one `collect_stats` call observes: the sysinfo
samples (after the settle wait), the sysfs snapshots, the vendor-library
state, the persisted network baseline and the clock. -/
structure SysEnv where
  host_name : Option String
  long_os_version : Option String
  cpus : List RawCpu
  load_avg : ℚ × ℚ × ℚ
  total_memory : ℕ
  used_memory : ℕ
  processes : List RawProcess
  disks : List RawDisk
  networks : List RawNetIf
  netState : Option (ℕ × ℕ × ℚ)
  now : ℚ
  hwmon : Option (List HwmonEntry)
  thermal0 : Option String
  gpu_env : GpuEnv
  battery : Option RawBattery

/-- String constant. -/
def strUnknownCap : String := "Unknown"

/-- `collect_stats` (collector.rs lines 140-235).  Returns the snapshot
(`none` = the process-sort panic aborted the call before the network,
sensor and battery probes ran) together with the final `LAST_NETWORK_DATA`
state. -/
def collect_stats (env : SysEnv) : Option SystemStats × Option (ℕ × ℕ × ℚ) :=
  let cpus := env.cpus
  let cpu_usage : ℚ :=
    if cpus.isEmpty then 0
    else (cpus.map RawCpu.usage).sum / (cpus.length : ℚ)
  let per_core_usage := cpus.map RawCpu.usage
  let cpu_frequency_mhz := ((cpus.head?).map RawCpu.frequency).getD 0
  let cpu_advanced : CpuAdvanced :=
    { per_core_usage := per_core_usage
    , cpu_frequency_mhz := cpu_frequency_mhz
    , load_avg_1 := env.load_avg.1
    , load_avg_5 := env.load_avg.2.1
    , load_avg_15 := env.load_avg.2.2 }
  let memory_total : ℚ := (env.total_memory % 2 ^ 64 : ℕ) / 1024 / 1024 / 1024
  let memory_used : ℚ := (env.used_memory % 2 ^ 64 : ℕ) / 1024 / 1024 / 1024
  let memory_usage_percent : ℚ :=
    if 0 < memory_total then memory_used / memory_total * 100 else 0
  let gpu := collect_gpu_info env.gpu_env
  match collect_process_info env.processes with
  | none => (none, env.netState)
  | some processes =>
    let disk_infos := env.disks.map diskInfoOf
    let net := collect_network_advanced env.netState env.now env.networks
    let sensors := collect_hardware_sensors env.hwmon env.thermal0
    let battery := collect_battery_info env.battery
    ( some
        { hostname := (env.host_name).getD strUnknownCap
        , os_version := (env.long_os_version).getD strUnknownCap
        , resources :=
            { cpu_usage := cpu_usage
            , cpu_count := cpus.length
            , cpu_name := ((cpus.head?).map RawCpu.brand).getD strUnknownCap
            , memory_total := memory_total
            , memory_used := memory_used
            , memory_usage_percent := memory_usage_percent }
        , cpu_advanced := cpu_advanced
        , gpu := gpu
        , processes := processes
        , disks := disk_infos
        , network_advanced := net.1
        , sensors := sensors
        , battery := battery }
    , net.2 )


/-! ### Claims C1, C6, C10 — NetworkRateTracker -/

/-- A concrete interface sample used in the network counterexamples: the
cumulative counters the spec's scenario prescribes (1,000,000 received
bytes, 500,000 transmitted bytes). -/
def ifaceC1 : RawNetIf :=
  { name := "eth0", total_received := 1000000, total_transmitted := 500000 }

/-- C1 counterexample: from baseline `(rx=0, tx=0, t=0)`, a second call
with cumulative counters rx=1,000,000 bytes and tx=500,000 bytes after
1 s reports `download_speed_mbps = 0` and `upload_speed_mbps = 0`, not the
`≈ 8.0` / `≈ 4.0` the claim states: the code sums the MiB-truncated
`received_mb`/`transmitted_mb` fields (`bytes / 1024 / 1024`), and
1,000,000 bytes truncates to 0 MiB. -/
theorem C1_counterexample :
    (collect_network_advanced (some (0, 0, 0)) 1 [ifaceC1]).1.download_speed_mbps = 0
    ∧ (collect_network_advanced (some (0, 0, 0)) 1 [ifaceC1]).1.upload_speed_mbps = 0
    ∧ ¬ (7 ≤ (collect_network_advanced (some (0, 0, 0)) 1 [ifaceC1]).1.download_speed_mbps)
    ∧ ¬ (3 ≤ (collect_network_advanced (some (0, 0, 0)) 1 [ifaceC1]).1.upload_speed_mbps) := by
  have h : (0 : ℚ) < 1 - 0 := by norm_num
  have h1 : mbTotals [ifaceC1] = (0, 0) := by decide
  refine ⟨?_, ?_, ?_, ?_⟩ <;>
    simp only [collect_network_advanced, h1, if_pos h, wsub64]
  all_goals norm_num

/-- C1 (amended): on the first call (no persisted baseline)
`collect_network_advanced` reports zero speeds and stores the summed
MiB-truncated totals and the timestamp; on a subsequent call with positive
elapsed time each speed is `(delta × 8) / 1000 / elapsed` where the delta
is the wrapping u64 difference of summed MiB-truncated counters
(`bytes / 1024 / 1024`), not of byte counters — so the spec's example
input (1,000,000 / 500,000 bytes in 1 s) yields `(0, 0)`, not `(8, 4)`. -/
theorem C1_amended_rates (rx0 tx0 : ℕ) (t0 now : ℚ) (raw : List RawNetIf)
    (h : 0 < now - t0) :
    (collect_network_advanced (some (rx0, tx0, t0)) now raw).1.download_speed_mbps
      = (wsub64 (mbTotals raw).1 rx0 : ℚ) / (now - t0) * 8 / 1000
    ∧ (collect_network_advanced (some (rx0, tx0, t0)) now raw).1.upload_speed_mbps
      = (wsub64 (mbTotals raw).2 tx0 : ℚ) / (now - t0) * 8 / 1000
    ∧ (collect_network_advanced (some (rx0, tx0, t0)) now raw).2
      = some ((mbTotals raw).1, (mbTotals raw).2, now)
    ∧ (collect_network_advanced none now raw).1.download_speed_mbps = 0
    ∧ (collect_network_advanced none now raw).1.upload_speed_mbps = 0
    ∧ (collect_network_advanced none now raw).2
      = some ((mbTotals raw).1, (mbTotals raw).2, now) := by
  have h2 : t0 < now := by linarith
  simp [collect_network_advanced, h2]

/-- C1 witness: the amended theorem applied to the spec's own scenario
(baseline `(0,0,0)`, counters 1,000,000 / 500,000 bytes, elapsed 1 s). -/
theorem C1_amended_rates_witness :
    (collect_network_advanced (some (0, 0, 0)) 1 [ifaceC1]).1.download_speed_mbps
      = (wsub64 (mbTotals [ifaceC1]).1 0 : ℚ) / (1 - 0) * 8 / 1000 :=
  (C1_amended_rates 0 0 0 1 [ifaceC1] (by norm_num)).1

/-- C6 counterexample: with persisted baseline `(5, 5, t=0)` and a second
call at the same clock value (elapsed = 0) whose current totals are
`(0, 0)`, the reported speeds are `(0, 0)` but the persisted baseline is
NOT overwritten with the current totals and timestamp: it stays
`(5, 5, 0)` instead of becoming `(0, 0, 0)`, because the source assigns
`LAST_NETWORK_DATA` only inside the `duration > 0.0` branch. -/
theorem C6_counterexample :
    (collect_network_advanced (some (5, 5, 0)) 0 []).2 = some (5, 5, 0)
    ∧ (collect_network_advanced (some (5, 5, 0)) 0 []).1.download_speed_mbps = 0
    ∧ (collect_network_advanced (some (5, 5, 0)) 0 []).1.upload_speed_mbps = 0
    ∧ (mbTotals []).1 = 0 ∧ (mbTotals []).2 = 0
    ∧ (some ((5 : ℕ), (5 : ℕ), (0 : ℚ))
        ≠ some ((mbTotals []).1, (mbTotals []).2, (0 : ℚ))) := by
  have hn : ¬ ((0 : ℚ) < 0 - 0) := by norm_num
  have h1 : mbTotals [] = (0, 0) := by decide
  refine ⟨?_, ?_, ?_, ?_, ?_, ?_⟩ <;>
    simp only [collect_network_advanced, h1, if_neg hn]
  all_goals norm_num

/-- C6 (amended): after the first call, if the elapsed time since the
baseline is zero (or negative, which the saturating `Instant` arithmetic
clamps to zero) the reported speeds are `(0, 0)` with no division by zero
and the persisted baseline is left UNCHANGED; the baseline is overwritten
with the current totals and timestamp only when the elapsed time is
positive, and on the very first call. -/
theorem C6_amended_baseline (rx0 tx0 : ℕ) (t0 now now' : ℚ)
    (raw raw' : List RawNetIf) (h : now - t0 ≤ 0) (h' : 0 < now' - t0) :
    (collect_network_advanced (some (rx0, tx0, t0)) now raw).1.download_speed_mbps = 0
    ∧ (collect_network_advanced (some (rx0, tx0, t0)) now raw).1.upload_speed_mbps = 0
    ∧ (collect_network_advanced (some (rx0, tx0, t0)) now raw).2 = some (rx0, tx0, t0)
    ∧ (collect_network_advanced (some (rx0, tx0, t0)) now' raw').2
      = some ((mbTotals raw').1, (mbTotals raw').2, now')
    ∧ (collect_network_advanced none now raw).2
      = some ((mbTotals raw).1, (mbTotals raw).2, now) := by
  have h2 : ¬ t0 < now := not_lt.mpr (by linarith)
  have h3 : t0 < now' := by linarith
  simp [collect_network_advanced, h2, h3]

/-- C6 witness: the amended theorem applied at baseline `(5, 5, 0)` with a
zero-elapsed call at `now = 0` and a positive-elapsed call at `now' = 1`. -/
theorem C6_amended_baseline_witness :
    (collect_network_advanced (some (5, 5, 0)) 0 []).2 = some (5, 5, 0)
    ∧ (collect_network_advanced (some (5, 5, 0)) 1 []).2
      = some ((mbTotals []).1, (mbTotals []).2, 1) :=
  ⟨(C6_amended_baseline 5 5 0 0 1 [] [] (by norm_num) (by norm_num)).2.2.1,
   (C6_amended_baseline 5 5 0 0 1 [] [] (by norm_num) (by norm_num)).2.2.2.1⟩

/-- A concrete interface whose cumulative counters are exactly 10 MiB in
each direction, used to reach a baseline of `(10, 10)`. -/
def ifaceC10 : RawNetIf :=
  { name := "eth0", total_received := 10485760, total_transmitted := 10485760 }

/-- C10 counterexample: a first call with one interface at 10 MiB stores
the baseline `(10, 10, 0)`; a second call one second later in which the
interface has disappeared (current totals `(0, 0)`, smaller than the
baseline) makes the u64 subtraction `total_received - last_rx` underflow
and wrap to `2 ^ 64 - 10`, so the reported download speed is the absurd
`(2 ^ 64 - 10) × 8 / 1000 ≈ 1.5 × 10 ^ 17` Mbps rather than a rate derived
from an un-wrapped delta. -/
theorem C10_counterexample :
    (collect_network_advanced none 0 [ifaceC10]).2 = some (10, 10, 0)
    ∧ (mbTotals []).1 < 10
    ∧ (collect_network_advanced (some (10, 10, 0)) 1 []).1.download_speed_mbps
      = ((2 ^ 64 - 10 : ℕ) : ℚ) * 8 / 1000
    ∧ (10 ^ 15 : ℚ)
      < (collect_network_advanced (some (10, 10, 0)) 1 []).1.download_speed_mbps := by
  have h : (0 : ℚ) < 1 - 0 := by norm_num
  have h1 : mbTotals [] = (0, 0) := by decide
  have h10 : mbTotals [ifaceC10] = (10, 10) := by decide
  refine ⟨?_, by decide, ?_, ?_⟩ <;>
    simp only [collect_network_advanced, h1, h10, if_pos h, wsub64]
  all_goals norm_num

/-- C10 (amended): for every call after the first with positive elapsed
time, both reported speeds are non-negative (and finite, being rationals);
when the current summed totals are at least the baseline the u64
subtraction does not wrap and the speed is the exact delta rate, but when
the totals have shrunk below the baseline (e.g. an interface disappeared)
the subtraction underflows and wraps modulo `2 ^ 64`, reporting the rate
of the wrapped delta `current + 2 ^ 64 - baseline`. -/
theorem C10_amended_wrap (rx0 tx0 : ℕ) (t0 now : ℚ) (raw : List RawNetIf)
    (h : 0 < now - t0) (hrx : rx0 < 2 ^ 64) :
    0 ≤ (collect_network_advanced (some (rx0, tx0, t0)) now raw).1.download_speed_mbps
    ∧ 0 ≤ (collect_network_advanced (some (rx0, tx0, t0)) now raw).1.upload_speed_mbps
    ∧ (rx0 ≤ (mbTotals raw).1 →
        (collect_network_advanced (some (rx0, tx0, t0)) now raw).1.download_speed_mbps
          = (((mbTotals raw).1 - rx0 : ℕ) : ℚ) / (now - t0) * 8 / 1000)
    ∧ ((mbTotals raw).1 < rx0 →
        (collect_network_advanced (some (rx0, tx0, t0)) now raw).1.download_speed_mbps
          = (((mbTotals raw).1 + 2 ^ 64 - rx0 : ℕ) : ℚ) / (now - t0) * 8 / 1000) := by
  have hm : (mbTotals raw).1 < 2 ^ 64 := Nat.mod_lt _ (by norm_num)
  simp only [collect_network_advanced, if_pos h]
  refine ⟨?_, ?_, ?_, ?_⟩
  · have hq : (0 : ℚ) ≤ (wsub64 (mbTotals raw).1 rx0 : ℚ) / (now - t0) :=
      div_nonneg (Nat.cast_nonneg _) (le_of_lt h)
    positivity
  · have hq : (0 : ℚ) ≤ (wsub64 (mbTotals raw).2 tx0 : ℚ) / (now - t0) :=
      div_nonneg (Nat.cast_nonneg _) (le_of_lt h)
    positivity
  · intro hle
    have hw : wsub64 (mbTotals raw).1 rx0 = (mbTotals raw).1 - rx0 := by
      unfold wsub64
      rw [show (mbTotals raw).1 + 2 ^ 64 - rx0 = ((mbTotals raw).1 - rx0) + 2 ^ 64 by omega,
        Nat.add_mod_right, Nat.mod_eq_of_lt (by omega)]
    rw [hw]
  · intro hlt
    have hw : wsub64 (mbTotals raw).1 rx0 = (mbTotals raw).1 + 2 ^ 64 - rx0 := by
      unfold wsub64
      exact Nat.mod_eq_of_lt (by omega)
    rw [hw]

/-- C10 witness: the amended theorem applied to the disappearing-interface
scenario (baseline `(10, 10, 0)`, current totals `(0, 0)`, elapsed 1 s):
the wrapped branch fires. -/
theorem C10_amended_wrap_witness :
    (collect_network_advanced (some (10, 10, 0)) 1 []).1.download_speed_mbps
      = (((mbTotals []).1 + 2 ^ 64 - 10 : ℕ) : ℚ) / (1 - 0) * 8 / 1000 :=
  (C10_amended_wrap 10 10 0 1 [] (by norm_num) (by norm_num)).2.2.2 (by decide)

/-! ### Shared helpers for the process, aggregator and sensor claims -/

/-- The comparator order is transitive (it is a rational comparison). -/
theorem procLE_trans : ∀ (a b c : ProcessInfo), procLE a b → procLE b c → procLE a c := by
  intro a b c h1 h2
  simp only [procLE, decide_eq_true_eq] at h1 h2 ⊢
  exact le_trans h2 h1

/-- The comparator order is total (it is a rational comparison). -/
theorem procLE_total : ∀ (a b : ProcessInfo), procLE a b || procLE b a := by
  intro a b
  simp only [procLE, Bool.or_eq_true, decide_eq_true_eq]
  exact le_total _ _

/-- A process whose cpu_usage is NaN. -/
def rawProcNan : RawProcess :=
  { pid := 1, name := "a", cpu_usage := F32.nan, memory := 0, status := .run }

/-- A process with an ordinary cpu_usage. -/
def rawProcOne : RawProcess :=
  { pid := 2, name := "b", cpu_usage := F32.val 1, memory := 0, status := .run }

/-- An environment in which every source is absent or empty: no CPUs, zero
memory totals, an empty process table, no disks, no interfaces, no sysfs
entries, no vendor library, no battery — the observable shape of a
catastrophic failure of the underlying OS enumeration APIs. -/
def envEmpty : SysEnv :=
  { host_name := none, long_os_version := none, cpus := [], load_avg := (0, 0, 0)
  , total_memory := 0, used_memory := 0, processes := [], disks := []
  , networks := [], netState := none, now := 0, hwmon := none, thermal0 := none
  , gpu_env :=
      { nvml_device0 := none, card0_exists := false, card0_device_exists := false
      , amd_product_name := none, amd_pp_dpm_sclk := none, amd_hwmon1_temp1 := none
      , amd_hwmon1_fan1 := none, intel_gt_cur_freq := none }
  , battery := none }

/-- The snapshot `collect_stats` produces on `envEmpty`. -/
def snapEmpty : SystemStats :=
  { hostname := strUnknownCap, os_version := strUnknownCap
  , resources :=
      { cpu_usage := 0, cpu_count := 0, cpu_name := strUnknownCap
      , memory_total := 0, memory_used := 0, memory_usage_percent := 0 }
  , cpu_advanced :=
      { per_core_usage := [], cpu_frequency_mhz := 0
      , load_avg_1 := 0, load_avg_5 := 0, load_avg_15 := 0 }
  , gpu := none, processes := [], disks := []
  , network_advanced := { interfaces := [], download_speed_mbps := 0, upload_speed_mbps := 0 }
  , sensors :=
      { cpu_temp_celsius := none, motherboard_temp_celsius := none
      , cpu_fan_rpm := none, cpu_voltage := none }
  , battery := none }

/-- Evaluation of the aggregator on the all-absent environment. -/
theorem collect_stats_envEmpty_eval : (collect_stats envEmpty).1 = some snapEmpty := by
  unfold collect_stats envEmpty snapEmpty
  norm_num [collect_process_info, sortPanics, collect_gpu_info, collect_nvidia_gpu,
    collect_amd_gpu, collect_intel_gpu, collect_network_advanced, mbTotals,
    collect_hardware_sensors, collect_battery_info, netIfOf, List.mergeSort_nil,
    thermalZoneTemp]

/-- The all-absent environment with a process table containing a NaN. -/
def envNan : SysEnv :=
  { envEmpty with processes := [rawProcNan, rawProcOne] }

/-- The fields of a successfully produced snapshot, in terms of the
environment. -/
theorem collect_stats_fields (env : SysEnv) (s : SystemStats)
    (h : (collect_stats env).1 = some s) :
    s.processes = ((env.processes.map processInfoOf).mergeSort procLE).take 10
    ∧ s.disks = env.disks.map diskInfoOf
    ∧ s.resources.memory_total = ((env.total_memory % 2 ^ 64 : ℕ) : ℚ) / 1024 / 1024 / 1024
    ∧ s.resources.memory_used = ((env.used_memory % 2 ^ 64 : ℕ) : ℚ) / 1024 / 1024 / 1024
    ∧ s.resources.memory_usage_percent
        = (if 0 < s.resources.memory_total
           then s.resources.memory_used / s.resources.memory_total * 100 else 0) := by
  unfold collect_stats at h
  cases hcp : collect_process_info env.processes with
  | none => rw [hcp] at h; simp at h
  | some ps =>
      rw [hcp] at h
      simp only [Option.some.injEq] at h
      have hps : ps = ((env.processes.map processInfoOf).mergeSort procLE).take 10 := by
        unfold collect_process_info at hcp
        by_cases hp : sortPanics (env.processes.map processInfoOf)
        · simp [hp] at hcp
        · simp [hp] at hcp
          rw [← hcp]
      subst h
      refine ⟨?_, ?_, ?_, ?_, ?_⟩ <;> simp [hps]

/-! ### Claim C2 — the sort comparator panics on NaN -/

/-- C2: the claim requires the sort comparator to be total and the
collection to survive NaN cpu_usage values; the code instead calls
`partial_cmp(..).unwrap()`, and `partial_cmp` is `None` whenever a NaN is
involved, so on a process table with a NaN entry the comparator panics
and the whole collection aborts (modelled as `none`): with the table
`[rawProcNan, rawProcOne]` the sort panics and `collect_stats` produces
no snapshot. -/
theorem C2_nan_comparator_panics :
    F32.pcmp (F32.val 1) F32.nan = none
    ∧ F32.pcmp F32.nan (F32.val 1) = none
    ∧ collect_process_info [rawProcNan, rawProcOne] = none
    ∧ (collect_stats envNan).1 = none := by
  refine ⟨rfl, rfl, rfl, ?_⟩
  have hp : collect_process_info envNan.processes = none := rfl
  simp [collect_stats, hp]

/-! ### Claim C4 — processes: top 10, sorted, stable -/

/-- C4: every snapshot `collect_stats` produces carries at most 10
processes, sorted non-increasingly by cpu_usage; the list is the
10-element truncation of a stable descending sort of the full mapped
table (so ties keep their enumeration order: any tied pair in input order
is still in that order in the sorted list, and truncation happens after
sorting). -/
theorem C4_processes_sorted_top10 (env : SysEnv) (s : SystemStats)
    (h : (collect_stats env).1 = some s) :
    s.processes.length ≤ 10
    ∧ s.processes.Pairwise (fun a b => F32.q b.cpu_usage ≤ F32.q a.cpu_usage)
    ∧ s.processes = ((env.processes.map processInfoOf).mergeSort procLE).take 10
    ∧ List.Perm ((env.processes.map processInfoOf).mergeSort procLE)
        (env.processes.map processInfoOf)
    ∧ (∀ a b : ProcessInfo, F32.q a.cpu_usage = F32.q b.cpu_usage →
        List.Sublist [a, b] (env.processes.map processInfoOf) →
        List.Sublist [a, b] ((env.processes.map processInfoOf).mergeSort procLE)) := by
  have hps := (collect_stats_fields env s h).1
  refine ⟨?_, ?_, hps, List.mergeSort_perm _ _, ?_⟩
  · rw [hps]
    simp [List.length_take]
  · rw [hps]
    have hs := @List.sorted_mergeSort ProcessInfo procLE procLE_trans procLE_total
      (env.processes.map processInfoOf)
    have hst : (((env.processes.map processInfoOf).mergeSort procLE).take 10).Pairwise
        (fun a b => procLE a b) :=
      List.Pairwise.sublist (List.take_sublist _ _) hs
    exact hst.imp (fun hab => by simpa [procLE] using hab)
  · intro a b hq hsub
    exact List.pair_sublist_mergeSort procLE_trans procLE_total
      (by simp [procLE, hq.symm.le]) hsub

/-- C4 witness: the theorem applied to the concrete environment
`envEmpty`, whose snapshot is `snapEmpty`. -/
theorem C4_processes_sorted_top10_witness :
    snapEmpty.processes.length ≤ 10
    ∧ snapEmpty.processes.Pairwise (fun a b => F32.q b.cpu_usage ≤ F32.q a.cpu_usage) :=
  ⟨(C4_processes_sorted_top10 envEmpty snapEmpty collect_stats_envEmpty_eval).1,
   (C4_processes_sorted_top10 envEmpty snapEmpty collect_stats_envEmpty_eval).2.1⟩

/-! ### Claims C3 and C9 — the GPU probe chain -/

/-- C3: `collect_gpu_info` returns at most one `GpuInfo` (it is an
`Option`), trying NVIDIA, then AMD, then Intel: a successful NVIDIA probe
short-circuits the rest; if the NVIDIA probe fails and the AMD sysfs path
is present the result is the AMD probe's result (which is `some`); Intel
is consulted only when NVIDIA and AMD both returned `none`; if all three
return `none` the result is `none`. -/
theorem C3_gpu_probe_chain (env : GpuEnv) :
    (∀ g, collect_nvidia_gpu env = some g → collect_gpu_info env = some g)
    ∧ (collect_nvidia_gpu env = none → env.card0_device_exists = true →
        collect_gpu_info env = collect_amd_gpu env ∧ (collect_amd_gpu env).isSome = true)
    ∧ (collect_nvidia_gpu env = none → collect_amd_gpu env = none →
        collect_gpu_info env = collect_intel_gpu env)
    ∧ (collect_nvidia_gpu env = none → collect_amd_gpu env = none →
        collect_intel_gpu env = none → collect_gpu_info env = none) := by
  refine ⟨?_, ?_, ?_, ?_⟩
  · intro g hg
    simp [collect_gpu_info, hg]
  · intro hn hd
    refine ⟨?_, by simp [collect_amd_gpu, hd]⟩
    cases hae : collect_amd_gpu env with
    | none => simp [collect_amd_gpu, hd] at hae
    | some a => simp [collect_gpu_info, hn, hae]
  · intro hn ha
    cases hi : collect_intel_gpu env <;> simp [collect_gpu_info, hn, ha, hi]
  · intro hn ha hi
    simp [collect_gpu_info, hn, ha, hi]

/-- A concrete GPU environment: no NVIDIA library, both DRM paths
present, no readable sysfs files. -/
def gpuEnvAmd : GpuEnv :=
  { nvml_device0 := none, card0_exists := true, card0_device_exists := true
  , amd_product_name := none, amd_pp_dpm_sclk := none, amd_hwmon1_temp1 := none
  , amd_hwmon1_fan1 := none, intel_gt_cur_freq := none }

/-- C3 witness: the chain theorem applied to `gpuEnvAmd` (NVIDIA absent,
AMD path present): the result is the AMD probe's `some`. -/
theorem C3_gpu_probe_chain_witness :
    collect_gpu_info gpuEnvAmd = collect_amd_gpu gpuEnvAmd
    ∧ (collect_amd_gpu gpuEnvAmd).isSome = true :=
  (C3_gpu_probe_chain gpuEnvAmd).2.1 rfl rfl

/-- A `some` result of the NVIDIA probe carries vendor "NVIDIA". -/
theorem vendor_of_nvidia {env : GpuEnv} {g : GpuInfo}
    (h : collect_nvidia_gpu env = some g) : g.vendor = "NVIDIA" := by
  unfold collect_nvidia_gpu at h
  cases hd : env.nvml_device0 with
  | none => rw [hd] at h; simp at h
  | some d =>
      rw [hd] at h
      simp only at h
      cases hm : d.memory_info with
      | none => rw [hm] at h; simp at h
      | some mi =>
          rw [hm] at h
          simp only [Option.some.injEq] at h
          rw [← h]

/-- A `some` result of the AMD probe carries vendor "AMD". -/
theorem vendor_of_amd {env : GpuEnv} {g : GpuInfo}
    (h : collect_amd_gpu env = some g) : g.vendor = "AMD" := by
  unfold collect_amd_gpu at h
  by_cases hd : env.card0_device_exists
  · simp only [hd, if_true, Option.some.injEq] at h
    rw [← h]
  · simp [hd] at h

/-- C9: the Intel probe is dead code.  Its activation condition (`card0`
and `card0/device` both exist, in one consistent filesystem snapshot)
implies the AMD activation condition (`card0/device` exists), and the AMD
probe is infallible once its path exists; hence the whole chain equals
the chain without Intel, and a present `gpu` never has vendor "Intel". -/
theorem C9_intel_unreachable (env : GpuEnv) :
    (collect_gpu_info env
      = (match collect_nvidia_gpu env with
         | some i => some i
         | none => collect_amd_gpu env))
    ∧ (env.card0_exists = true → env.card0_device_exists = true →
        (collect_amd_gpu env).isSome = true)
    ∧ (∀ g, collect_gpu_info env = some g → g.vendor ≠ "Intel") := by
  have hchain : collect_gpu_info env
      = (match collect_nvidia_gpu env with
         | some i => some i
         | none => collect_amd_gpu env) := by
    cases hn : collect_nvidia_gpu env with
    | some g => simp [collect_gpu_info, hn]
    | none =>
        cases ha : collect_amd_gpu env with
        | some a => simp [collect_gpu_info, hn, ha]
        | none =>
            have hd : env.card0_device_exists = false := by
              by_contra hcon
              simp [collect_amd_gpu, eq_true_of_ne_false hcon] at ha
            simp [collect_gpu_info, collect_intel_gpu, hn, ha, hd]
  refine ⟨hchain, ?_, ?_⟩
  · intro _ hd
    simp [collect_amd_gpu, hd]
  · intro g hg
    rw [hchain] at hg
    cases hn : collect_nvidia_gpu env with
    | some i =>
        rw [hn] at hg
        simp only [Option.some.injEq] at hg
        subst hg
        rw [vendor_of_nvidia hn]
        decide
    | none =>
        rw [hn] at hg
        rw [vendor_of_amd hg]
        decide

/-- C9 witness: in the environment `gpuEnvAmd`, where the Intel activation
condition holds, the AMD probe indeed returns `some`. -/
theorem C9_intel_unreachable_witness :
    (collect_amd_gpu gpuEnvAmd).isSome = true :=
  (C9_intel_unreachable gpuEnvAmd).2.1 rfl rfl

/-! ### Claim C5 — percent fields guarded at zero totals -/

/-- C5: in every produced snapshot, `memory_usage_percent` is
`used/total*100` with an explicit 0 when the total is 0, and every disk's
`usage_percent` is `used/total*100` with an explicit 0 when `total_gb` is
0, where `used_gb` is `total_gb` minus the available space (in GiB). -/
theorem C5_percent_zero_guard (env : SysEnv) (s : SystemStats)
    (h : (collect_stats env).1 = some s) :
    (s.resources.memory_usage_percent
      = if s.resources.memory_total = 0 then 0
        else s.resources.memory_used / s.resources.memory_total * 100)
    ∧ (∀ d ∈ s.disks, d.usage_percent
        = if d.total_gb = 0 then 0 else d.used_gb / d.total_gb * 100)
    ∧ s.disks = env.disks.map diskInfoOf
    ∧ (∀ rd : RawDisk,
        (diskInfoOf rd).used_gb
          = (diskInfoOf rd).total_gb
            - ((rd.available_space % 2 ^ 64 : ℕ) : ℚ) / 1024 / 1024 / 1024) := by
  obtain ⟨hp, hd, hmt, hmu, hpc⟩ := collect_stats_fields env s h
  have hdisk : ∀ rd : RawDisk,
      ((diskInfoOf rd).total_gb = ((rd.total_space % 2 ^ 64 : ℕ) : ℚ) / 1024 / 1024 / 1024)
      ∧ ((diskInfoOf rd).used_gb
          = (diskInfoOf rd).total_gb
            - ((rd.available_space % 2 ^ 64 : ℕ) : ℚ) / 1024 / 1024 / 1024)
      ∧ ((diskInfoOf rd).usage_percent
          = if 0 < (diskInfoOf rd).total_gb
            then (diskInfoOf rd).used_gb / (diskInfoOf rd).total_gb * 100 else 0) := by
    intro rd
    refine ⟨rfl, rfl, ?_⟩
    simp [diskInfoOf]
  refine ⟨?_, ?_, hd, fun rd => (hdisk rd).2.1⟩
  · rw [hpc]
    rcases lt_or_eq_of_le (show (0 : ℚ) ≤ s.resources.memory_total by
      rw [hmt]; positivity) with hlt | heq
    · rw [if_pos hlt, if_neg (by linarith)]
    · rw [if_neg (by rw [← heq]; exact lt_irrefl 0), if_pos heq.symm]
  · intro d hdm
    rw [hd] at hdm
    obtain ⟨rd, _, rfl⟩ := List.mem_map.mp hdm
    obtain ⟨ht, hu, hq⟩ := hdisk rd
    rw [hq]
    have h0 : (0 : ℚ) ≤ (diskInfoOf rd).total_gb := by rw [ht]; positivity
    rcases lt_or_eq_of_le h0 with hlt | heq
    · rw [if_pos hlt, if_neg (by linarith)]
    · rw [if_neg (by rw [← heq]; exact lt_irrefl 0), if_pos heq.symm]

/-- C5 witness: the theorem applied to the concrete environment
`envEmpty`, whose snapshot is `snapEmpty` (memory total 0, percent 0). -/
theorem C5_percent_zero_guard_witness :
    snapEmpty.resources.memory_usage_percent
      = (if snapEmpty.resources.memory_total = 0 then 0
         else snapEmpty.resources.memory_used / snapEmpty.resources.memory_total * 100) :=
  (C5_percent_zero_guard envEmpty snapEmpty collect_stats_envEmpty_eval).1

/-! ### Claim C7 — last-enumerated sensor entry wins for fan and voltage -/

/-- Last-write-wins for the unconditional fan assignment in the loop. -/
theorem foldl_sensorStep_fan (l : List HwmonEntry) (init : HardwareSensors) :
    (l.foldl sensorStep init).cpu_fan_rpm
      = (((l.getLast?).map entryFan).getD init.cpu_fan_rpm) := by
  induction l using List.reverseRecOn with
  | nil => rfl
  | append_singleton l e ih =>
      simp [List.foldl_append, sensorStep]

/-- Last-write-wins for the unconditional voltage assignment in the loop. -/
theorem foldl_sensorStep_volt (l : List HwmonEntry) (init : HardwareSensors) :
    (l.foldl sensorStep init).cpu_voltage
      = (((l.getLast?).map entryVolt).getD init.cpu_voltage) := by
  induction l using List.reverseRecOn with
  | nil => rfl
  | append_singleton l e ih =>
      simp [List.foldl_append, sensorStep]

/-- Last matching entry wins for the guarded CPU-temperature assignment. -/
theorem foldl_sensorStep_cpu_temp (l : List HwmonEntry) (init : HardwareSensors) :
    (l.foldl sensorStep init).cpu_temp_celsius
      = ((((l.filter (fun e => cpuNameMatch (entryName e))).getLast?).map entryTemp).getD
          init.cpu_temp_celsius) := by
  induction l using List.reverseRecOn with
  | nil => rfl
  | append_singleton l e ih =>
      by_cases hc : cpuNameMatch (entryName e)
      · simp [List.foldl_append, sensorStep, List.filter_append, hc]
      · simp [List.foldl_append, sensorStep, List.filter_append, hc, ih]

/-- Last matching entry wins for the guarded board-temperature assignment. -/
theorem foldl_sensorStep_board_temp (l : List HwmonEntry) (init : HardwareSensors) :
    (l.foldl sensorStep init).motherboard_temp_celsius
      = ((((l.filter (fun e => boardNameMatch (entryName e))).getLast?).map entryTemp).getD
          init.motherboard_temp_celsius) := by
  induction l using List.reverseRecOn with
  | nil => rfl
  | append_singleton l e ih =>
      by_cases hc : boardNameMatch (entryName e)
      · simp [List.foldl_append, sensorStep, List.filter_append, hc]
      · simp [List.foldl_append, sensorStep, List.filter_append, hc, ih]

/-- C7: for every enumeration of sensor-registry entries, the reported
fan RPM and voltage are exactly the (possibly failed) reads of the LAST
enumerated entry — no name filter, no early exit, and `none` when that
last entry's file is missing or unparsable even if an earlier entry
yielded a value — while the two temperatures are set only by entries
whose name matches the respective substrings (with the thermal-zone
fallback when no matching entry produced a CPU temperature). -/
theorem C7_sensor_last_entry_wins (es : List HwmonEntry) (thermal0 : Option String) :
    (collect_hardware_sensors (some es) thermal0).cpu_fan_rpm
      = (es.getLast?).bind entryFan
    ∧ (collect_hardware_sensors (some es) thermal0).cpu_voltage
      = (es.getLast?).bind entryVolt
    ∧ (collect_hardware_sensors (some es) thermal0).motherboard_temp_celsius
      = ((es.filter (fun e => boardNameMatch (entryName e))).getLast?).bind entryTemp
    ∧ (collect_hardware_sensors (some es) thermal0).cpu_temp_celsius
      = (match ((es.filter (fun e => cpuNameMatch (entryName e))).getLast?).bind entryTemp with
         | some v => some v
         | none => thermalZoneTemp thermal0) := by
  have hfan := foldl_sensorStep_fan es
    { cpu_temp_celsius := none, motherboard_temp_celsius := none
    , cpu_fan_rpm := none, cpu_voltage := none }
  have hvolt := foldl_sensorStep_volt es
    { cpu_temp_celsius := none, motherboard_temp_celsius := none
    , cpu_fan_rpm := none, cpu_voltage := none }
  have hct := foldl_sensorStep_cpu_temp es
    { cpu_temp_celsius := none, motherboard_temp_celsius := none
    , cpu_fan_rpm := none, cpu_voltage := none }
  have hbt := foldl_sensorStep_board_temp es
    { cpu_temp_celsius := none, motherboard_temp_celsius := none
    , cpu_fan_rpm := none, cpu_voltage := none }
  refine ⟨?_, ?_, ?_, ?_⟩
  · simp only [collect_hardware_sensors, hfan]
    cases es.getLast? <;> simp
  · simp only [collect_hardware_sensors, hvolt]
    cases es.getLast? <;> simp
  · simp only [collect_hardware_sensors, hbt]
    cases (es.filter (fun e => boardNameMatch (entryName e))).getLast? <;> simp
  · simp only [collect_hardware_sensors, hct]
    cases (es.filter (fun e => cpuNameMatch (entryName e))).getLast? <;> simp

/-! ### Claim C8 — no error result exists -/

/-- C8 counterexample: on the environment in which the OS process-table
and memory enumeration yield nothing at all (empty table, zero totals —
the observable shape of a catastrophic failure through the sysinfo
layer), `collect_stats` still returns a normal snapshot, not an error
result; indeed its return type carries no error alternative. -/
theorem C8_counterexample :
    envEmpty.processes = [] ∧ envEmpty.cpus = [] ∧ envEmpty.total_memory = 0
    ∧ envEmpty.disks = [] ∧ envEmpty.networks = [] ∧ envEmpty.battery = none
    ∧ (collect_stats envEmpty).1 = some snapEmpty :=
  ⟨rfl, rfl, rfl, rfl, rfl, rfl, collect_stats_envEmpty_eval⟩

/-- C8 (amended): no individual probe failure (GPU, disks, network,
sensors, battery) aborts `collect_stats` — for EVERY environment, however
absent or malformed its sources, the collection yields a normal snapshot;
the only abort is the process-sort NaN panic, and a catastrophic failure
of the OS process/memory enumeration surfaces as empty/zero fields in a
normal snapshot, never as an error result (the return type has none). -/
theorem C8_no_error_result (env : SysEnv)
    (h : sortPanics (env.processes.map processInfoOf) = false) :
    ((collect_stats env).1).isSome = true := by
  simp [collect_stats, collect_process_info, h]

/-- C8 witness: the amended theorem applied to the catastrophic
environment `envEmpty`. -/
theorem C8_no_error_result_witness :
    sortPanics (envEmpty.processes.map processInfoOf) = false
    ∧ ((collect_stats envEmpty).1).isSome = true :=
  ⟨rfl, C8_no_error_result envEmpty rfl⟩
